import Mathlib

/-!
Shallow embedding of the report-generation polling client
(`app/api.py`, `app/settings.py`, `app/exceptions.py`).

Modelling conventions:

* All durations and timestamps are integers counted in tenths of a second
  (deciseconds).  The source measures time in seconds and its only
  non-integral interval is the 0.8 s poll cadence, so one decisecond of
  granularity represents every interval of the source exactly.
* An HTTP exchange is modelled by a `Response` record.  The `date` header of
  a creation response and the `json()["value"]` field of a retrieval response
  appear as `Option` fields: `none` means the header/body is missing or
  malformed, i.e. that reading it in Python would raise.
* A run of a loop is driven by a *script*: the list of responses the server
  would return to the successive requests of that run.  Each poll response is
  paired with the wall-clock instant `datetime.utcnow().timestamp()` sampled
  when `ReportChecker.__check_time_elapsed` runs right after receiving it.
* Each run returns the ordered list of its observable events (`Ev`) together
  with how the coroutine ended (`RunExit`).
-/

/-! ### Settings (`app/settings.py`), in deciseconds -/

/-- `MIN_TIME_FOR_RETRIEVING_REPORT_IN_SECONDS = 30` (here: 300 ds). -/
def MIN_TIME_FOR_RETRIEVING_REPORT : Int := 300

/-- `MAX_TIME_FOR_RETRIEVING_REPORT_IN_SECONDS = 300` (here: 3000 ds). -/
def MAX_TIME_FOR_RETRIEVING_REPORT : Int := 3000

/-- `TIME_BETWEEN_REQUESTS_FOR_CREATING_REPORTS_IN_SECONDS = 60` (here: 600 ds). -/
def TIME_BETWEEN_REQUESTS_FOR_CREATING_REPORTS : Int := 600

/-- `TIME_BETWEEN_GET_REQUESTS_IN_SECONDS = 0.8` (here: 8 ds). -/
def TIME_BETWEEN_GET_REQUESTS : Int := 8

/-- `REPORT_RETRIEVED_STATUS_CODE = 200`. -/
def REPORT_RETRIEVED_STATUS_CODE : Nat := 200

/-- `REQUESTS_FOR_CREATING_REPORT_SUCCESSFULLY_SENT_STATUS_CODE = 201`. -/
def REPORT_CREATED_STATUS_CODE : Nat := 201

/-- `REPORT_STILL_NOT_AVAILABLE_STATUS_CODE = 202`. -/
def REPORT_STILL_NOT_AVAILABLE_STATUS_CODE : Nat := 202

/-- `REPORT_ALREADY_EXISTS_STATUS_CODE = 409`. -/
def REPORT_ALREADY_EXISTS_STATUS_CODE : Nat := 409

/-- `LINE_FOR_CSV = "{timestamp};{value}\\n\n"` from `app/settings.py`:
the format template holds a literal backslash-n escape (two characters)
followed by a real newline.  Formatting substitutes the timestamp and the
value into the braces. -/
def LINE_FOR_CSV (timestamp value : String) : String :=
  timestamp ++ ";" ++ value ++ "\\n\n"

/-! ### Responses and events -/

/-- One completed HTTP response, as the client observes it.
`dateHeader`: the `date` header parsed by
`ReportCreator.__get_timestamp_from_response` with the single format string
`'%a, %d %b %Y %H:%M:%S %Z'`; `none` when the header is missing or not in
that format (so that reading it raises `KeyError`/`ValueError`).
`jsonValue`: `response.json()["value"]`; `none` when the body is not JSON or
has no `"value"` key (so that reading it raises). -/
structure Response where
  status : Nat
  text : String
  dateHeader : Option Int
  jsonValue : Option String
deriving DecidableEq, Repr

/-- A `(timestamp, value)` pair appended to `results.csv` by
`ReportChecker.__add_new_line_to_csv`. -/
structure ResultRecord where
  timestamp : Int
  value : String
deriving DecidableEq, Repr

/-- `ReportChecker.__add_new_line_to_csv`: the text actually written for one
record (the timestamp is substituted into `LINE_FOR_CSV` in decimal). -/
def addNewLineToCsv (rec : ResultRecord) : String :=
  LINE_FOR_CSV (toString rec.timestamp) rec.value

/-- The exception classes that steer control flow in `app/api.py`. -/
inductive ExcName where
  | httpStatusError
  | unexpectedAPIStatusCode
  | tooMuchTimePassed
  | dateHeaderError
  | valueKeyError
deriving DecidableEq, Repr

/-- Observable events of a run, in program order. -/
inductive Ev where
  | sleepFor (d : Int)
  | postReport (id : String) (status : Nat)
  | getReport (id : String) (status : Nat)
  | logInfo
  | logWarning
  | logDebug
  | logError (e : ExcName)
  | spawnChecker (id : String) (timestamp : Int) (sleep : Bool)
  | scheduleNextCycle (sleep : Bool)
  | appendRecord (rec : ResultRecord)
deriving DecidableEq, Repr

/-- How a `_run` invocation chain ends.
`exitZero` is Python `raise SystemExit(0)`; `exitNone` is Python
`raise SystemExit()` whose argument defaults to `None`; `uncaught e` means
exception `e` propagates past every handler of `app/api.py`;
`incomplete` means the response script ran out while the loop would
continue. -/
inductive RunExit where
  | normal
  | exitZero
  | exitNone
  | uncaught (e : ExcName)
  | incomplete
deriving DecidableEq, Repr

/-- The argument of the `SystemExit` raised on each deliberate-termination
path of `app/api.py` (`none` in the `Option (Option Int)` result means the
run does not raise `SystemExit` at all; `some none` is `SystemExit()`;
`some (some 0)` is `SystemExit(0)`). -/
def systemExitArg : RunExit → Option (Option Int)
  | RunExit.exitZero => some (some 0)
  | RunExit.exitNone => some none
  | _ => none

/-- CPython maps the argument of an uncaught `SystemExit` to the process
exit status: an integer is used as is, and `None` means exit status 0. -/
def processExitStatus (arg : Option Int) : Int :=
  arg.getD 0

/-- `httpx.Response.raise_for_status` raises `HTTPStatusError` exactly for
client-error and server-error statuses (400–599). -/
def isErrorStatus (s : Nat) : Bool :=
  decide (400 ≤ s) && decide (s < 600)

/-! ### The polling loop (`ReportChecker`) -/

/-- Result of one `_send_request` body: returned normally, raised, or the
script ran out. -/
inductive SendRes where
  | ok
  | exc (e : ExcName)
  | outOfScript
deriving DecidableEq, Repr

/-- `ReportChecker._send_request` together with the inlined
`__make_request_and_check_response`, `ReportBase._check_response`,
`__check_time_elapsed` and `__report_retrieved`:

* each script element `(now, r)` is one GET (`reports/{id}`) answered by `r`,
  with `now` the wall clock sampled at the subsequent deadline check;
* `_check_response` first calls `raise_for_status` (400–599 raises
  `HTTPStatusError`), then raises `UnexpectedAPIStatusCode` when the status
  is outside the expected tuple `(200, 202)`;
* the `while status != 200` body checks `now - timestamp_created >
  MAX_TIME_FOR_RETRIEVING_REPORT` (raising `TooMuchTimePassed`), logs the
  debug message, sleeps for `TIME_BETWEEN_GET_REQUESTS` and GETs again;
* on status 200, `__report_retrieved` logs the info message, reads
  `response.json()["value"]` (raising when absent) and appends the
  `(timestamp_created, value)` record. -/
def checkerSendLoop (id : String) (t0 : Int) :
    List (Int × Response) → List Ev × SendRes
  | [] => ([], SendRes.outOfScript)
  | (now, r) :: rest =>
    if isErrorStatus r.status then
      ([Ev.getReport id r.status], SendRes.exc ExcName.httpStatusError)
    else if r.status = REPORT_RETRIEVED_STATUS_CODE ∨
        r.status = REPORT_STILL_NOT_AVAILABLE_STATUS_CODE then
      if r.status = REPORT_RETRIEVED_STATUS_CODE then
        match r.jsonValue with
        | none => ([Ev.getReport id r.status, Ev.logInfo],
            SendRes.exc ExcName.valueKeyError)
        | some v => ([Ev.getReport id r.status, Ev.logInfo,
            Ev.appendRecord ⟨t0, v⟩], SendRes.ok)
      else if now - t0 > MAX_TIME_FOR_RETRIEVING_REPORT then
        ([Ev.getReport id r.status], SendRes.exc ExcName.tooMuchTimePassed)
      else
        let next := checkerSendLoop id t0 rest
        ([Ev.getReport id r.status, Ev.logDebug,
          Ev.sleepFor TIME_BETWEEN_GET_REQUESTS] ++ next.1, next.2)
    else
      ([Ev.getReport id r.status], SendRes.exc ExcName.unexpectedAPIStatusCode)

/-- The exception handling around `_send_request` for the checker:
`ReportBase._run` catches `httpx.HTTPStatusError` (logs it, then the
inherited no-op `_check_exception`) and `UnexpectedAPIStatusCode` (logs it,
then `raise SystemExit()`); `ReportChecker._run` additionally catches
`TooMuchTimePassed` and logs it.  A `KeyError` from `json()["value"]` is
caught by neither. -/
def checkerBody (id : String) (t0 : Int) (script : List (Int × Response)) :
    List Ev × RunExit :=
  let res := checkerSendLoop id t0 script
  match res.2 with
  | SendRes.ok => (res.1, RunExit.normal)
  | SendRes.outOfScript => (res.1, RunExit.incomplete)
  | SendRes.exc ExcName.httpStatusError =>
      (res.1 ++ [Ev.logError ExcName.httpStatusError], RunExit.normal)
  | SendRes.exc ExcName.unexpectedAPIStatusCode =>
      (res.1 ++ [Ev.logError ExcName.unexpectedAPIStatusCode],
        RunExit.exitNone)
  | SendRes.exc ExcName.tooMuchTimePassed =>
      (res.1 ++ [Ev.logError ExcName.tooMuchTimePassed], RunExit.normal)
  | SendRes.exc e => (res.1, RunExit.uncaught e)

/-- `ReportChecker._run (sleep)`: `ReportBase._run` first sleeps for
`_sleeping_time = MIN_TIME_FOR_RETRIEVING_REPORT` when `sleep` is true,
then runs the request body under the handlers of `checkerBody`. -/
def checkerRun (id : String) (t0 : Int) (sleep : Bool)
    (script : List (Int × Response)) : List Ev × RunExit :=
  let body := checkerBody id t0 script
  ((if sleep then [Ev.sleepFor MIN_TIME_FOR_RETRIEVING_REPORT] else []) ++
    body.1, body.2)

/-! ### The creation loop (`ReportCreator`) -/

/-- `ReportCreator._send_request` together with `ReportBase._run`'s handlers
and `ReportCreator._check_exception`, unfolded along the script of creation
responses; `ids k` is the UUID produced by the `k`-th call of
`uuid.uuid4()`:

* each attempt POSTs `reports` with the next fresh identifier;
* a 400–599 status raises `HTTPStatusError`; `_run` logs it and calls
  `_check_exception`: on 409 it logs a warning and re-runs with
  `sleep=False` (the next attempt, no sleep); otherwise it logs a warning
  and raises `SystemExit(0)`;
* a non-error status other than 201 raises `UnexpectedAPIStatusCode`;
  `_run` logs it and raises `SystemExit()`;
* on 201, `__get_timestamp_from_response` reads the `date` header (raising,
  caught by no handler, when missing or malformed), the info message is
  logged, and `asyncio.gather` starts the checker with `sleep=True`
  together with the recursive `_run()` whose `sleep` defaults to true. -/
def creatorSend (ids : Nat → String) (k : Nat) :
    List Response → List Ev × RunExit
  | [] => ([], RunExit.incomplete)
  | r :: rest =>
    if isErrorStatus r.status then
      if r.status = REPORT_ALREADY_EXISTS_STATUS_CODE then
        let next := creatorSend ids (k + 1) rest
        ([Ev.postReport (ids k) r.status,
          Ev.logError ExcName.httpStatusError, Ev.logWarning] ++ next.1,
          next.2)
      else
        ([Ev.postReport (ids k) r.status,
          Ev.logError ExcName.httpStatusError, Ev.logWarning],
          RunExit.exitZero)
    else if r.status = REPORT_CREATED_STATUS_CODE then
      match r.dateHeader with
      | none => ([Ev.postReport (ids k) r.status],
          RunExit.uncaught ExcName.dateHeaderError)
      | some t => ([Ev.postReport (ids k) r.status, Ev.logInfo,
          Ev.spawnChecker (ids k) t true, Ev.scheduleNextCycle true],
          RunExit.normal)
    else
      ([Ev.postReport (ids k) r.status,
        Ev.logError ExcName.unexpectedAPIStatusCode], RunExit.exitNone)

/-- `ReportCreator._run (sleep)`: sleeps for `_sleeping_time =
TIME_BETWEEN_REQUESTS_FOR_CREATING_REPORTS` when `sleep` is true, then runs
the creation attempt chain. -/
def creatorRun (ids : Nat → String) (k : Nat) (sleep : Bool)
    (script : List Response) : List Ev × RunExit :=
  let body := creatorSend ids k script
  ((if sleep then [Ev.sleepFor TIME_BETWEEN_REQUESTS_FOR_CREATING_REPORTS]
    else []) ++ body.1, body.2)

/-! ### Trace observations -/

/-- Is the event a suspension? -/
def isSleep : Ev → Bool
  | Ev.sleepFor _ => true
  | _ => false

/-- Is the event a GET request? -/
def isGet : Ev → Bool
  | Ev.getReport _ _ => true
  | _ => false

/-- Is the event a POST request? -/
def isPost : Ev → Bool
  | Ev.postReport _ _ => true
  | _ => false

/-- Number of GET requests in a trace. -/
def getCount (evs : List Ev) : Nat := (evs.filter isGet).length

/-- Number of POST requests in a trace. -/
def postCount (evs : List Ev) : Nat := (evs.filter isPost).length

/-- The identifiers of the POST requests of a trace, in order. -/
def postIds (evs : List Ev) : List String :=
  evs.filterMap fun e =>
    match e with
    | Ev.postReport i _ => some i
    | _ => none

/-- The records appended to the sink by a trace, in order. -/
def recordsOf (evs : List Ev) : List ResultRecord :=
  evs.filterMap fun e =>
    match e with
    | Ev.appendRecord rec => some rec
    | _ => none

/-- The `sleep` flags with which a trace starts spawned checkers or
schedules the next creation cycle. -/
def spawnSleepFlags (evs : List Ev) : List Bool :=
  evs.filterMap fun e =>
    match e with
    | Ev.spawnChecker _ _ b => some b
    | Ev.scheduleNextCycle b => some b
    | _ => none

/-- The durations of the suspensions of a trace, in order. -/
def sleepDurations (evs : List Ev) : List Int :=
  evs.filterMap fun e =>
    match e with
    | Ev.sleepFor d => some d
    | _ => none

/-! ### Cooperative scheduling (`asyncio.sleep` / `asyncio.gather`)

`await asyncio.gather(report_checker.connect(sleep=True), self._run())`
runs the spawned checker and the next creation cycle as sibling cooperative
tasks.  A task suspends only at `asyncio.sleep`, so in virtual time every
other event of a task occurs at the instant its preceding sleeps add up to.
`timedOf` stamps a task's events with those instants and `gatherMerge`
interleaves two stamped tasks in time order, which is the schedule the
event loop executes. -/

/-- One event stamped with the virtual instant at which it occurs. -/
structure TEv where
  time : Int
  ev : Ev
deriving DecidableEq, Repr

/-- Order of stamped events by their instants. -/
def TEv.le (a b : TEv) : Prop := a.time ≤ b.time

instance : DecidableRel TEv.le := fun a b => Int.decLe a.time b.time

instance : IsTotal TEv TEv.le := ⟨fun a b => Int.le_total a.time b.time⟩

instance : IsTrans TEv TEv.le := ⟨fun _ _ _ => Int.le_trans⟩

/-- Stamp the events of a task that starts at instant `start`: a sleep
advances the task's clock and every other event happens at the current
instant. -/
def timedOf (start : Int) : List Ev → List TEv
  | [] => []
  | Ev.sleepFor d :: rest => timedOf (start + d) rest
  | e :: rest => ⟨start, e⟩ :: timedOf start rest

/-- The schedule `asyncio.gather` executes: the time-ordered interleaving of
two stamped tasks. -/
def gatherMerge (xs ys : List TEv) : List TEv :=
  xs.merge ys fun a b => decide (TEv.le a b)

/-! ### Helper observations about the polling loop -/

/-- The events one still-pending poll iteration contributes per script
element: the GET, the debug log of `time_passed`/`count`, and the cadence
sleep. -/
def pendingTrace (id : String) (pend : List (Int × Response)) : List Ev :=
  pend.flatMap fun p =>
    [Ev.getReport id p.2.status, Ev.logDebug,
      Ev.sleepFor TIME_BETWEEN_GET_REQUESTS]

theorem checkerSendLoop_pending_prefix (id : String) (t0 : Int)
    (pend tail : List (Int × Response))
    (hp : ∀ p ∈ pend, p.2.status = REPORT_STILL_NOT_AVAILABLE_STATUS_CODE ∧
      ¬ p.1 - t0 > MAX_TIME_FOR_RETRIEVING_REPORT) :
    checkerSendLoop id t0 (pend ++ tail) =
      (pendingTrace id pend ++ (checkerSendLoop id t0 tail).1,
        (checkerSendLoop id t0 tail).2) := by
  induction pend with
  | nil => simp [pendingTrace]
  | cons p pend ih =>
    have hh := hp p (List.mem_cons_self p pend)
    have ih2 := ih fun q hq => hp q (List.mem_cons_of_mem p hq)
    obtain ⟨now, r⟩ := p
    obtain ⟨h1, h2⟩ := hh
    simp only [REPORT_STILL_NOT_AVAILABLE_STATUS_CODE] at h1
    simp [checkerSendLoop, pendingTrace, h1, isErrorStatus, h2, ih2,
      REPORT_RETRIEVED_STATUS_CODE, REPORT_STILL_NOT_AVAILABLE_STATUS_CODE]

theorem getCount_pendingTrace (id : String) (pend : List (Int × Response)) :
    getCount (pendingTrace id pend) = pend.length := by
  induction pend with
  | nil => simp [pendingTrace, getCount]
  | cons p pend ih =>
    simp [pendingTrace, getCount, isGet, List.filter_append] at ih ⊢
    simpa [getCount, pendingTrace] using ih

theorem recordsOf_pendingTrace (id : String)
    (pend : List (Int × Response)) :
    recordsOf (pendingTrace id pend) = [] := by
  induction pend with
  | nil => simp [pendingTrace, recordsOf]
  | cons p pend ih =>
    simp [pendingTrace, recordsOf, List.filterMap_append] at ih ⊢
    simpa [recordsOf, pendingTrace] using ih

theorem getLast?_tail3 (l : List Ev) (a b c : Ev) :
    (l ++ [a, b, c]).getLast? = some c := by
  rw [List.getLast?_append]; rfl

theorem checkerSendLoop_no_logError (id : String) (t0 : Int)
    (script : List (Int × Response)) (e : ExcName) :
    Ev.logError e ∉ (checkerSendLoop id t0 script).1 := by
  induction script with
  | nil => simp [checkerSendLoop]
  | cons p rest ih =>
    obtain ⟨now, r⟩ := p
    cases hjv : r.jsonValue <;>
      simp [checkerSendLoop, hjv] <;>
      split_ifs <;>
      simp_all

theorem checkerSendLoop_expired_mem (id : String) (t0 : Int)
    (script : List (Int × Response))
    (h : (checkerSendLoop id t0 script).2 =
      SendRes.exc ExcName.tooMuchTimePassed) :
    Ev.getReport id REPORT_STILL_NOT_AVAILABLE_STATUS_CODE ∈
      (checkerSendLoop id t0 script).1 := by
  induction script with
  | nil => simp [checkerSendLoop] at h
  | cons p rest ih =>
    obtain ⟨now, r⟩ := p
    cases hjv : r.jsonValue <;>
      simp only [checkerSendLoop, hjv] at h ⊢ <;>
      split_ifs at h ⊢ <;>
      simp_all [REPORT_STILL_NOT_AVAILABLE_STATUS_CODE,
        REPORT_RETRIEVED_STATUS_CODE]

/-! ### Helper observations about the creation loop -/

theorem creatorSend_no_sleep (ids : Nat → String) (k : Nat)
    (script : List Response) :
    (creatorSend ids k script).1.filter isSleep = [] := by
  induction script generalizing k with
  | nil => simp [creatorSend]
  | cons r rest ih =>
    cases hdh : r.dateHeader <;>
      simp only [creatorSend, hdh] <;>
      split_ifs <;>
      simp_all [isSleep] <;>
      exact ih _

theorem creatorSend_spawn_flags (ids : Nat → String) (k : Nat)
    (script : List Response) :
    ((spawnSleepFlags (creatorSend ids k script).1).all (fun b => b)) =
      true := by
  induction script generalizing k with
  | nil => simp [creatorSend, spawnSleepFlags]
  | cons r rest ih =>
    cases hdh : r.dateHeader <;>
      simp only [creatorSend, hdh] <;>
      split_ifs <;>
      simp_all [spawnSleepFlags] <;>
      exact ih _

theorem checkerSendLoop_sleep_durations (id : String) (t0 : Int)
    (script : List (Int × Response)) :
    ((sleepDurations (checkerSendLoop id t0 script).1).all
      (fun d => d == TIME_BETWEEN_GET_REQUESTS)) = true := by
  induction script with
  | nil => simp [checkerSendLoop, sleepDurations]
  | cons p rest ih =>
    obtain ⟨now, r⟩ := p
    cases hjv : r.jsonValue <;>
      simp only [checkerSendLoop, hjv] <;>
      split_ifs <;>
      simp_all [sleepDurations] <;>
      exact ih

theorem checkerBody_sleep_durations (id : String) (t0 : Int)
    (script : List (Int × Response)) :
    ((sleepDurations (checkerBody id t0 script).1).all
      (fun d => d == TIME_BETWEEN_GET_REQUESTS)) = true := by
  have h := checkerSendLoop_sleep_durations id t0 script
  rcases hq : (checkerSendLoop id t0 script).2 with _ | e | _ <;>
    [skip; cases e; skip] <;>
    simp_all [checkerBody, hq, sleepDurations]

/-! ### Helper observations about timed traces -/

theorem sleepDurations_cons_sleep (d : Int) (rest : List Ev) :
    sleepDurations (Ev.sleepFor d :: rest) = d :: sleepDurations rest := by
  simp [sleepDurations]

theorem sleepDurations_cons_other (e : Ev) (rest : List Ev)
    (he : isSleep e = false) :
    sleepDurations (e :: rest) = sleepDurations rest := by
  cases e <;> simp_all [sleepDurations, isSleep]

theorem timedOf_cons_other (s : Int) (e : Ev) (rest : List Ev)
    (he : isSleep e = false) :
    timedOf s (e :: rest) = ⟨s, e⟩ :: timedOf s rest := by
  cases e <;> simp_all [timedOf, isSleep]

theorem timedOf_time_ge (evs : List Ev) :
    ∀ s : Int, (∀ d ∈ sleepDurations evs, 0 ≤ d) →
      ∀ te ∈ timedOf s evs, s ≤ te.time := by
  induction evs with
  | nil => intro s _ te hte; simp [timedOf] at hte
  | cons e rest ih =>
    intro s h te hte
    by_cases hs : isSleep e
    · obtain ⟨d, rfl⟩ : ∃ d, e = Ev.sleepFor d := by
        cases e <;> simp_all [isSleep]
      have hd : 0 ≤ d := h d (by
        rw [sleepDurations_cons_sleep]; exact List.mem_cons_self _ _)
      have hrest : ∀ d2 ∈ sleepDurations rest, 0 ≤ d2 := fun d2 hd2 => h d2
        (by rw [sleepDurations_cons_sleep]; exact List.mem_cons_of_mem _ hd2)
      have hge := ih (s + d) hrest te (by simpa [timedOf] using hte)
      omega
    · rw [Bool.not_eq_true] at hs
      rw [timedOf_cons_other s e rest hs] at hte
      have hrest : ∀ d2 ∈ sleepDurations rest, 0 ≤ d2 := fun d2 hd2 => h d2
        (by rw [sleepDurations_cons_other e rest hs]; exact hd2)
      rcases List.mem_cons.1 hte with h1 | h1
      · simp [h1]
      · exact ih s hrest te h1

theorem timedOf_sorted (evs : List Ev) :
    ∀ s : Int, (∀ d ∈ sleepDurations evs, 0 ≤ d) →
      List.Sorted TEv.le (timedOf s evs) := by
  induction evs with
  | nil => intro s _; simp [timedOf]
  | cons e rest ih =>
    intro s h
    by_cases hs : isSleep e
    · obtain ⟨d, rfl⟩ : ∃ d, e = Ev.sleepFor d := by
        cases e <;> simp_all [isSleep]
      have hrest : ∀ d2 ∈ sleepDurations rest, 0 ≤ d2 := fun d2 hd2 => h d2
        (by rw [sleepDurations_cons_sleep]; exact List.mem_cons_of_mem _ hd2)
      simpa [timedOf] using ih (s + d) hrest
    · rw [Bool.not_eq_true] at hs
      have hrest : ∀ d2 ∈ sleepDurations rest, 0 ≤ d2 := fun d2 hd2 => h d2
        (by rw [sleepDurations_cons_other e rest hs]; exact hd2)
      rw [timedOf_cons_other s e rest hs]
      exact List.sorted_cons.2
        ⟨fun te hte => timedOf_time_ge rest s hrest te hte, ih s hrest⟩

theorem checkerRun_sleeps_nonneg (id : String) (t0 : Int) (sleep : Bool)
    (script : List (Int × Response)) :
    ∀ d ∈ sleepDurations (checkerRun id t0 sleep script).1, 0 ≤ d := by
  intro d hd
  have hb := checkerBody_sleep_durations id t0 script
  rw [List.all_eq_true] at hb
  have hsplit : sleepDurations (checkerRun id t0 sleep script).1 =
      sleepDurations
        (if sleep then [Ev.sleepFor MIN_TIME_FOR_RETRIEVING_REPORT]
          else []) ++
      sleepDurations (checkerBody id t0 script).1 := by
    simp [checkerRun, sleepDurations, List.filterMap_append]
  rw [hsplit] at hd
  rcases List.mem_append.1 hd with h1 | h1
  · cases sleep <;> simp_all [sleepDurations, MIN_TIME_FOR_RETRIEVING_REPORT]
  · have hdb := hb d h1
    have hdq : d = TIME_BETWEEN_GET_REQUESTS := by
      simpa using hdb
    rw [hdq]; simp [TIME_BETWEEN_GET_REQUESTS]

theorem creatorSend_sleepDurations (ids : Nat → String) (k : Nat)
    (script : List Response) :
    sleepDurations (creatorSend ids k script).1 = [] := by
  induction script generalizing k with
  | nil => simp [creatorSend, sleepDurations]
  | cons r rest ih =>
    cases hdh : r.dateHeader <;>
      simp only [creatorSend, hdh] <;>
      split_ifs <;>
      simp_all [sleepDurations] <;>
      exact ih _

theorem creatorRun_sleeps_nonneg (ids : Nat → String) (k : Nat)
    (sleep : Bool) (script : List Response) :
    ∀ d ∈ sleepDurations (creatorRun ids k sleep script).1, 0 ≤ d := by
  intro d hd
  have hsplit : sleepDurations (creatorRun ids k sleep script).1 =
      sleepDurations
        (if sleep then
          [Ev.sleepFor TIME_BETWEEN_REQUESTS_FOR_CREATING_REPORTS]
        else []) ++
      sleepDurations (creatorSend ids k script).1 := by
    simp [creatorRun, sleepDurations, List.filterMap_append]
  rw [hsplit, creatorSend_sleepDurations] at hd
  cases sleep <;>
    simp_all [sleepDurations, TIME_BETWEEN_REQUESTS_FOR_CREATING_REPORTS]

theorem creatorSend_head (ids : Nat → String) (k : Nat) (r : Response)
    (rest : List Response) :
    ∃ tl, (creatorSend ids k (r :: rest)).1 =
      Ev.postReport (ids k) r.status :: tl := by
  cases hdh : r.dateHeader <;>
    simp only [creatorSend, hdh] <;>
    split_ifs <;>
    exact ⟨_, rfl⟩

/-! ### Claim theorems -/

/-- C1: a creation attempt answered with HTTP 409 logs the server's message
and immediately re-runs creation with `sleep=false` (no backoff event
appears anywhere in the trace), generating a fresh identifier on every
attempt; on the response sequence [409, 409, 201] the loop issues exactly
the three POSTs with the three successive — hence pairwise distinct —
identifiers, and spawns the polling loop only after the 201. -/
theorem creation_conflict_retries_with_fresh_ids (ids : Nat → String)
    (r1 r2 r3 : Response) (t : Int)
    (h1 : r1.status = REPORT_ALREADY_EXISTS_STATUS_CODE)
    (h2 : r2.status = REPORT_ALREADY_EXISTS_STATUS_CODE)
    (h3 : r3.status = REPORT_CREATED_STATUS_CODE)
    (hd : r3.dateHeader = some t)
    (h01 : ids 0 ≠ ids 1) (h02 : ids 0 ≠ ids 2) (h12 : ids 1 ≠ ids 2) :
    creatorRun ids 0 false [r1, r2, r3] =
      ([Ev.postReport (ids 0) REPORT_ALREADY_EXISTS_STATUS_CODE,
        Ev.logError ExcName.httpStatusError, Ev.logWarning,
        Ev.postReport (ids 1) REPORT_ALREADY_EXISTS_STATUS_CODE,
        Ev.logError ExcName.httpStatusError, Ev.logWarning,
        Ev.postReport (ids 2) REPORT_CREATED_STATUS_CODE,
        Ev.logInfo, Ev.spawnChecker (ids 2) t true,
        Ev.scheduleNextCycle true], RunExit.normal) ∧
    postIds (creatorRun ids 0 false [r1, r2, r3]).1 =
      [ids 0, ids 1, ids 2] ∧
    List.Pairwise (fun a b => a ≠ b) [ids 0, ids 1, ids 2] ∧
    (creatorRun ids 0 false [r1, r2, r3]).1.filter isSleep = [] := by
  have hrun : creatorRun ids 0 false [r1, r2, r3] =
      ([Ev.postReport (ids 0) REPORT_ALREADY_EXISTS_STATUS_CODE,
        Ev.logError ExcName.httpStatusError, Ev.logWarning,
        Ev.postReport (ids 1) REPORT_ALREADY_EXISTS_STATUS_CODE,
        Ev.logError ExcName.httpStatusError, Ev.logWarning,
        Ev.postReport (ids 2) REPORT_CREATED_STATUS_CODE,
        Ev.logInfo, Ev.spawnChecker (ids 2) t true,
        Ev.scheduleNextCycle true], RunExit.normal) := by
    simp [creatorRun, creatorSend, h1, h2, h3, hd, isErrorStatus,
      REPORT_ALREADY_EXISTS_STATUS_CODE, REPORT_CREATED_STATUS_CODE]
  refine ⟨hrun, ?_, ?_, ?_⟩
  · simp [hrun, postIds]
  · simp [h01, h02, h12]
  · simp [hrun, isSleep]

/-- C1 witness: the theorem applied to the concrete response sequence
[409, 409, 201] and the identifier supply `toString`. -/
theorem creation_conflict_retries_with_fresh_ids_witness :
    creatorRun (fun n => toString n) 0 false
      [⟨409, ("report already exists"), none, none⟩,
        ⟨409, ("report already exists"), none, none⟩,
        ⟨201, (""), some (1000), none⟩] =
      ([Ev.postReport (toString (0 : Nat)) REPORT_ALREADY_EXISTS_STATUS_CODE,
        Ev.logError ExcName.httpStatusError, Ev.logWarning,
        Ev.postReport (toString (1 : Nat)) REPORT_ALREADY_EXISTS_STATUS_CODE,
        Ev.logError ExcName.httpStatusError, Ev.logWarning,
        Ev.postReport (toString (2 : Nat)) REPORT_CREATED_STATUS_CODE,
        Ev.logInfo, Ev.spawnChecker (toString (2 : Nat)) 1000 true,
        Ev.scheduleNextCycle true], RunExit.normal) ∧
    postIds (creatorRun (fun n => toString n) 0 false
      [⟨409, ("report already exists"), none, none⟩,
        ⟨409, ("report already exists"), none, none⟩,
        ⟨201, (""), some (1000), none⟩]).1 =
      [toString (0 : Nat), toString (1 : Nat), toString (2 : Nat)] ∧
    List.Pairwise (fun a b => a ≠ b)
      [toString (0 : Nat), toString (1 : Nat), toString (2 : Nat)] ∧
    (creatorRun (fun n => toString n) 0 false
      [⟨409, ("report already exists"), none, none⟩,
        ⟨409, ("report already exists"), none, none⟩,
        ⟨201, (""), some (1000), none⟩]).1.filter isSleep = [] :=
  creation_conflict_retries_with_fresh_ids (fun n => toString n) _ _ _ 1000
    rfl rfl rfl rfl (by decide) (by decide) (by decide)

/-- C2: while polls return 202 within the deadline, a poll whose sampled
wall clock `now` satisfies `now - t0 > MAX_TIME_FOR_RETRIEVING_REPORT`
makes the loop emit the expired condition: it is logged as an error, the
run exits normally (no crash, no `SystemExit`), no `ResultRecord` is
produced, and no GET beyond the expiring one is performed. -/
theorem poll_deadline_expiry_is_graceful (id : String) (t0 : Int)
    (sleep : Bool) (pend : List (Int × Response)) (now : Int) (r : Response)
    (rest : List (Int × Response))
    (hp : ∀ p ∈ pend, p.2.status = REPORT_STILL_NOT_AVAILABLE_STATUS_CODE ∧
      ¬ p.1 - t0 > MAX_TIME_FOR_RETRIEVING_REPORT)
    (hr : r.status = REPORT_STILL_NOT_AVAILABLE_STATUS_CODE)
    (hnow : now - t0 > MAX_TIME_FOR_RETRIEVING_REPORT) :
    (checkerRun id t0 sleep (pend ++ (now, r) :: rest)).2 =
      RunExit.normal ∧
    Ev.logError ExcName.tooMuchTimePassed ∈
      (checkerRun id t0 sleep (pend ++ (now, r) :: rest)).1 ∧
    getCount (checkerRun id t0 sleep (pend ++ (now, r) :: rest)).1 =
      pend.length + 1 ∧
    recordsOf (checkerRun id t0 sleep (pend ++ (now, r) :: rest)).1 =
      [] := by
  have htail : checkerSendLoop id t0 ((now, r) :: rest) =
      ([Ev.getReport id r.status], SendRes.exc ExcName.tooMuchTimePassed) := by
    simp [checkerSendLoop, hr, isErrorStatus, hnow,
      REPORT_RETRIEVED_STATUS_CODE, REPORT_STILL_NOT_AVAILABLE_STATUS_CODE]
  have hall := checkerSendLoop_pending_prefix id t0 pend ((now, r) :: rest) hp
  rw [htail] at hall
  constructor
  · simp [checkerRun, checkerBody, hall]
  constructor
  · simp [checkerRun, checkerBody, hall]
  have hg := getCount_pendingTrace id pend
  have hrec := recordsOf_pendingTrace id pend
  constructor
  · cases sleep <;>
      simp_all [checkerRun, checkerBody, hall, getCount, isGet,
        List.filter_append]
  · cases sleep <;>
      simp_all [checkerRun, checkerBody, hall, recordsOf,
        List.filterMap_append]

/-- C2 witness: creation timestamp 0, one in-deadline pending poll, then a
pending poll at 301 s (3010 ds); the expiring poll leaves the remaining
script element untouched. -/
theorem poll_deadline_expiry_is_graceful_witness :
    (checkerRun ("rep-1") 0 false ([(1000, ⟨202, (""), none, none⟩)] ++
      (3010, ⟨202, (""), none, none⟩) ::
        [(3020, ⟨200, (""), none, some ("x")⟩)])).2 = RunExit.normal ∧
    Ev.logError ExcName.tooMuchTimePassed ∈
      (checkerRun ("rep-1") 0 false ([(1000, ⟨202, (""), none, none⟩)] ++
        (3010, ⟨202, (""), none, none⟩) ::
          [(3020, ⟨200, (""), none, some ("x")⟩)])).1 ∧
    getCount (checkerRun ("rep-1") 0 false
      ([(1000, ⟨202, (""), none, none⟩)] ++
        (3010, ⟨202, (""), none, none⟩) ::
          [(3020, ⟨200, (""), none, some ("x")⟩)])).1 =
      [(1000, (⟨202, (""), none, none⟩ : Response))].length + 1 ∧
    recordsOf (checkerRun ("rep-1") 0 false
      ([(1000, ⟨202, (""), none, none⟩)] ++
        (3010, ⟨202, (""), none, none⟩) ::
          [(3020, ⟨200, (""), none, some ("x")⟩)])).1 = [] :=
  poll_deadline_expiry_is_graceful ("rep-1") 0 false
    [(1000, ⟨202, (""), none, none⟩)] 3010 ⟨202, (""), none, none⟩
    [(3020, ⟨200, (""), none, some ("x")⟩)] (by decide) rfl (by decide)

/-- C3: a poll run consisting of in-deadline 202 responses and then a 200
whose body carries `value = v` appends exactly one `ResultRecord` — with
the original creation timestamp `t0`, not the retrieval time, and value
`v` — the run ends normally, and that single append is the final event of
the loop. -/
theorem poll_ready_emits_exactly_one_record (id : String) (t0 : Int)
    (sleep : Bool) (pend : List (Int × Response)) (nowR : Int)
    (r : Response) (v : String)
    (hp : ∀ p ∈ pend, p.2.status = REPORT_STILL_NOT_AVAILABLE_STATUS_CODE ∧
      ¬ p.1 - t0 > MAX_TIME_FOR_RETRIEVING_REPORT)
    (hr : r.status = REPORT_RETRIEVED_STATUS_CODE)
    (hv : r.jsonValue = some v) :
    recordsOf (checkerRun id t0 sleep (pend ++ [(nowR, r)])).1 =
      [⟨t0, v⟩] ∧
    (checkerRun id t0 sleep (pend ++ [(nowR, r)])).2 = RunExit.normal ∧
    (checkerRun id t0 sleep (pend ++ [(nowR, r)])).1.getLast? =
      some (Ev.appendRecord ⟨t0, v⟩) := by
  have htail : checkerSendLoop id t0 [(nowR, r)] =
      ([Ev.getReport id r.status, Ev.logInfo, Ev.appendRecord ⟨t0, v⟩],
        SendRes.ok) := by
    simp [checkerSendLoop, hr, hv, isErrorStatus,
      REPORT_RETRIEVED_STATUS_CODE, REPORT_STILL_NOT_AVAILABLE_STATUS_CODE]
  have hall := checkerSendLoop_pending_prefix id t0 pend [(nowR, r)] hp
  rw [htail] at hall
  have hrec := recordsOf_pendingTrace id pend
  refine ⟨?_, ?_, ?_⟩
  · cases sleep <;>
      simp_all [checkerRun, checkerBody, hall, recordsOf,
        List.filterMap_append]
  · simp [checkerRun, checkerBody, hall]
  · cases sleep
    · simp only [checkerRun, checkerBody, hall, Bool.false_eq_true,
        if_false, List.nil_append]
      exact getLast?_tail3 _ _ _ _
    · simp only [checkerRun, checkerBody, hall, if_true, List.cons_append,
        List.nil_append]
      rw [← List.cons_append]
      exact getLast?_tail3 _ _ _ _

/-- C3 witness: poll sequence [202, 202, 200 with value x] for creation
timestamp 0; exactly one record (0, x) is appended (the retrieval instant
300 does not appear in it), and it is the last event. -/
theorem poll_ready_emits_exactly_one_record_witness :
    recordsOf (checkerRun ("rep-1") 0 true
      ([(100, ⟨202, (""), none, none⟩), (200, ⟨202, (""), none, none⟩)] ++
        [(300, ⟨200, (""), none, some ("x")⟩)])).1 =
      [⟨0, ("x")⟩] ∧
    (checkerRun ("rep-1") 0 true
      ([(100, ⟨202, (""), none, none⟩), (200, ⟨202, (""), none, none⟩)] ++
        [(300, ⟨200, (""), none, some ("x")⟩)])).2 = RunExit.normal ∧
    (checkerRun ("rep-1") 0 true
      ([(100, ⟨202, (""), none, none⟩), (200, ⟨202, (""), none, none⟩)] ++
        [(300, ⟨200, (""), none, some ("x")⟩)])).1.getLast? =
      some (Ev.appendRecord ⟨0, ("x")⟩) :=
  poll_ready_emits_exactly_one_record ("rep-1") 0 true
    [(100, ⟨202, (""), none, none⟩), (200, ⟨202, (""), none, none⟩)] 300
    ⟨200, (""), none, some ("x")⟩ ("x") (by decide) rfl rfl

/-- C4 counterexample: a polling GET answered 404 — outside the documented
expected set {200, 202} — does NOT terminate the process: the
`HTTPStatusError` is logged, the inherited no-op `_check_exception` runs,
and the poll coroutine returns normally with no `SystemExit` raised, so
the claim that every out-of-set status is fatal for the whole process is
false at this input. -/
theorem polling_error_status_not_fatal_cex :
    ((404 : Nat) ∉ [REPORT_RETRIEVED_STATUS_CODE,
      REPORT_STILL_NOT_AVAILABLE_STATUS_CODE]) ∧
    checkerRun ("rep-1") 0 false [(1, ⟨404, ("Not Found"), none, none⟩)] =
      ([Ev.getReport ("rep-1") 404, Ev.logError ExcName.httpStatusError],
        RunExit.normal) ∧
    systemExitArg RunExit.normal = none := by
  refine ⟨by decide, by decide, rfl⟩

/-- C4 (amended): a completed response whose status is outside the expected
set *and outside 400–599* (so that `raise_for_status` does not intercept
it) is fatal on both calls: it is logged and the process terminates via
`SystemExit`; but a 4xx/5xx polling response is only logged, after which
the poll loop exits without terminating the process (no further request,
no record, no `SystemExit`). -/
theorem unexpected_status_fatal_amended (id : String) (t0 : Int)
    (sleep1 : Bool) (now : Int) (r1 : Response)
    (rest1 : List (Int × Response)) (ids : Nat → String) (k : Nat)
    (sleep2 : Bool) (r2 : Response) (rest2 : List Response) (id2 : String)
    (t02 : Int) (sleep3 : Bool) (now2 : Int) (r3 : Response)
    (rest3 : List (Int × Response))
    (ha1 : isErrorStatus r1.status = false)
    (ha2 : r1.status ≠ REPORT_RETRIEVED_STATUS_CODE)
    (ha3 : r1.status ≠ REPORT_STILL_NOT_AVAILABLE_STATUS_CODE)
    (hb1 : isErrorStatus r2.status = false)
    (hb2 : r2.status ≠ REPORT_CREATED_STATUS_CODE)
    (hc1 : isErrorStatus r3.status = true) :
    checkerRun id t0 sleep1 ((now, r1) :: rest1) =
      ((if sleep1 then [Ev.sleepFor MIN_TIME_FOR_RETRIEVING_REPORT]
        else []) ++
        [Ev.getReport id r1.status,
          Ev.logError ExcName.unexpectedAPIStatusCode], RunExit.exitNone) ∧
    creatorRun ids k sleep2 (r2 :: rest2) =
      ((if sleep2 then
          [Ev.sleepFor TIME_BETWEEN_REQUESTS_FOR_CREATING_REPORTS]
        else []) ++
        [Ev.postReport (ids k) r2.status,
          Ev.logError ExcName.unexpectedAPIStatusCode], RunExit.exitNone) ∧
    checkerRun id2 t02 sleep3 ((now2, r3) :: rest3) =
      ((if sleep3 then [Ev.sleepFor MIN_TIME_FOR_RETRIEVING_REPORT]
        else []) ++
        [Ev.getReport id2 r3.status, Ev.logError ExcName.httpStatusError],
        RunExit.normal) ∧
    systemExitArg RunExit.normal = none := by
  refine ⟨?_, ?_, ?_, rfl⟩
  · simp [checkerRun, checkerBody, checkerSendLoop, ha1, ha2, ha3]
  · rcases hdh : r2.dateHeader <;>
      simp [creatorRun, creatorSend, hb1, hb2, hdh]
  · simp [checkerRun, checkerBody, checkerSendLoop, hc1]

/-- C4 witness: 204 on a poll and 302 on a creation are fatal; 500 on a
poll only aborts that poll loop. -/
theorem unexpected_status_fatal_amended_witness :
    checkerRun ("rep-1") 0 false [(1, ⟨204, (""), none, none⟩)] =
      ([Ev.getReport ("rep-1") 204,
        Ev.logError ExcName.unexpectedAPIStatusCode], RunExit.exitNone) ∧
    creatorRun (fun n => toString n) 0 false [⟨302, (""), none, none⟩] =
      ([Ev.postReport (toString (0 : Nat)) 302,
        Ev.logError ExcName.unexpectedAPIStatusCode], RunExit.exitNone) ∧
    checkerRun ("rep-2") 0 false [(1, ⟨500, (""), none, none⟩)] =
      ([Ev.getReport ("rep-2") 500, Ev.logError ExcName.httpStatusError],
        RunExit.normal) ∧
    systemExitArg RunExit.normal = none := by
  have h := unexpected_status_fatal_amended ("rep-1") 0 false 1
    ⟨204, (""), none, none⟩ [] (fun n => toString n) 0 false
    ⟨302, (""), none, none⟩ [] ("rep-2") 0 false 1 ⟨500, (""), none, none⟩
    [] (by decide) (by decide) (by decide) (by decide) (by decide)
    (by decide)
  simpa using h

/-- C5 counterexample: a fatal unexpected-status fault (creation response
204) terminates via `raise SystemExit()` whose argument defaults to
`None`, and CPython maps that to process exit status 0 — not the non-zero
code the claim requires. -/
theorem fatal_exit_status_zero_cex :
    (creatorRun (fun n => toString n) 0 false
      [⟨204, (""), none, none⟩]).2 = RunExit.exitNone ∧
    systemExitArg RunExit.exitNone = some none ∧
    processExitStatus none = 0 := by
  refine ⟨by decide, rfl, rfl⟩

/-- C5 (amended): the graceful termination path (creation 4xx/5xx other
than 409) raises `SystemExit(0)`, exit status 0; the fatal
unexpected-status path raises `SystemExit()` with no argument, whose exit
status is likewise 0 — every deliberate termination of this client exits
with status 0. -/
theorem exit_status_zero_on_all_paths (ids : Nat → String) (k : Nat)
    (sleep1 : Bool) (r1 : Response) (rest1 : List Response)
    (ids2 : Nat → String) (k2 : Nat) (sleep2 : Bool) (r2 : Response)
    (rest2 : List Response)
    (hg1 : isErrorStatus r1.status = true)
    (hg2 : r1.status ≠ REPORT_ALREADY_EXISTS_STATUS_CODE)
    (hf1 : isErrorStatus r2.status = false)
    (hf2 : r2.status ≠ REPORT_CREATED_STATUS_CODE) :
    (creatorRun ids k sleep1 (r1 :: rest1)).2 = RunExit.exitZero ∧
    (systemExitArg RunExit.exitZero).map processExitStatus = some 0 ∧
    (creatorRun ids2 k2 sleep2 (r2 :: rest2)).2 = RunExit.exitNone ∧
    (systemExitArg RunExit.exitNone).map processExitStatus = some 0 := by
  refine ⟨?_, rfl, ?_, rfl⟩
  · simp [creatorRun, creatorSend, hg1, hg2]
  · rcases hdh : r2.dateHeader <;>
      simp [creatorRun, creatorSend, hf1, hf2, hdh]

/-- C5 witness: creation 404 exits gracefully with status 0; creation 204
exits fatally, also with status 0. -/
theorem exit_status_zero_on_all_paths_witness :
    (creatorRun (fun n => toString n) 0 false
      [⟨404, ("Not Found"), none, none⟩]).2 = RunExit.exitZero ∧
    (systemExitArg RunExit.exitZero).map processExitStatus = some 0 ∧
    (creatorRun (fun n => toString n) 0 false
      [⟨204, (""), none, none⟩]).2 = RunExit.exitNone ∧
    (systemExitArg RunExit.exitNone).map processExitStatus = some 0 :=
  exit_status_zero_on_all_paths (fun n => toString n) 0 false
    ⟨404, ("Not Found"), none, none⟩ [] (fun n => toString n) 0 false
    ⟨204, (""), none, none⟩ [] (by decide) (by decide) (by decide)
    (by decide)

/-- C6: every record written to the sink is the timestamp, a semicolon, the
value, the literal two-character backslash–n escape, then one real
newline; when neither field contains a newline the line holds exactly one
newline character, at its very end, and `__add_new_line_to_csv` produces
exactly this format for every record. -/
theorem csv_line_single_line_format (ts v : String) (rec : ResultRecord)
    (h1 : ('\n') ∉ ts.data) (h2 : ('\n') ∉ v.data) :
    (LINE_FOR_CSV ts v).data =
      ts.data ++ (';') :: (v.data ++ [('\\'), ('n'), ('\n')]) ∧
    (LINE_FOR_CSV ts v).data.count ('\n') = 1 ∧
    (LINE_FOR_CSV ts v).data.getLast? = some ('\n') ∧
    addNewLineToCsv rec = LINE_FOR_CSV (toString rec.timestamp) rec.value := by
  have hdata : (LINE_FOR_CSV ts v).data =
      ts.data ++ (';') :: (v.data ++ [('\\'), ('n'), ('\n')]) := by
    simp [LINE_FOR_CSV, String.data_append]
  refine ⟨hdata, ?_, ?_, rfl⟩
  · rw [hdata]
    simp [List.count_append, List.count_cons,
      List.count_eq_zero.2 h1, List.count_eq_zero.2 h2]
  · have h3 : (LINE_FOR_CSV ts v).data =
        (ts.data ++ (';') :: (v.data ++ [('\\'), ('n')])) ++ [('\n')] := by
      rw [hdata]; simp
    rw [h3, List.getLast?_concat]

/-- C6 witness: the line for timestamp 1000 and value x. -/
theorem csv_line_single_line_format_witness :
    (LINE_FOR_CSV ("1000") ("x")).data =
      ("1000").data ++ (';') :: (("x").data ++ [('\\'), ('n'), ('\n')]) ∧
    (LINE_FOR_CSV ("1000") ("x")).data.count ('\n') = 1 ∧
    (LINE_FOR_CSV ("1000") ("x")).data.getLast? = some ('\n') ∧
    addNewLineToCsv ⟨1000, ("x")⟩ =
      LINE_FOR_CSV (toString (1000 : Int)) ("x") :=
  csv_line_single_line_format ("1000") ("x") ⟨1000, ("x")⟩ (by decide)
    (by decide)

/-- C7: `_run(sleep)` suspends before its request exactly when `sleep` is
true, for the fixed per-loop interval — the creation interval for the
creator and the initial poll delay for the checker (and nothing else: the
creation attempt chain itself never sleeps); every spawned checker and
every scheduled next cycle carries `sleep = true`; every suspension inside
the poll body lasts the poll cadence, and a still-pending in-deadline poll
is followed by exactly the debug log and the cadence sleep before the next
GET. -/
theorem run_sleep_semantics (ids : Nat → String) (k : Nat)
    (script : List Response) (id : String) (t0 : Int)
    (s2 : List (Int × Response)) (now : Int) (r : Response)
    (rest : List (Int × Response))
    (hr : r.status = REPORT_STILL_NOT_AVAILABLE_STATUS_CODE)
    (hin : ¬ now - t0 > MAX_TIME_FOR_RETRIEVING_REPORT) :
    creatorRun ids k true script =
      (Ev.sleepFor TIME_BETWEEN_REQUESTS_FOR_CREATING_REPORTS ::
        (creatorRun ids k false script).1,
        (creatorRun ids k false script).2) ∧
    checkerRun id t0 true s2 =
      (Ev.sleepFor MIN_TIME_FOR_RETRIEVING_REPORT ::
        (checkerRun id t0 false s2).1, (checkerRun id t0 false s2).2) ∧
    (creatorSend ids k script).1.filter isSleep = [] ∧
    ((spawnSleepFlags (creatorSend ids k script).1).all (fun b => b)) =
      true ∧
    ((sleepDurations (checkerBody id t0 s2).1).all
      (fun d => d == TIME_BETWEEN_GET_REQUESTS)) = true ∧
    checkerSendLoop id t0 ((now, r) :: rest) =
      (Ev.getReport id r.status :: Ev.logDebug ::
        Ev.sleepFor TIME_BETWEEN_GET_REQUESTS ::
        (checkerSendLoop id t0 rest).1,
        (checkerSendLoop id t0 rest).2) := by
  refine ⟨?_, ?_, creatorSend_no_sleep ids k script,
    creatorSend_spawn_flags ids k script,
    checkerBody_sleep_durations id t0 s2, ?_⟩
  · simp [creatorRun]
  · simp [checkerRun]
  · simp [checkerSendLoop, hr, hin, isErrorStatus,
      REPORT_RETRIEVED_STATUS_CODE, REPORT_STILL_NOT_AVAILABLE_STATUS_CODE]

/-- C7 witness: concrete runs on a one-element creation script and a
one-element in-deadline pending poll script. -/
theorem run_sleep_semantics_witness :
    creatorRun (fun n => toString n) 0 true [⟨201, (""), some (50), none⟩] =
      (Ev.sleepFor TIME_BETWEEN_REQUESTS_FOR_CREATING_REPORTS ::
        (creatorRun (fun n => toString n) 0 false
          [⟨201, (""), some (50), none⟩]).1,
        (creatorRun (fun n => toString n) 0 false
          [⟨201, (""), some (50), none⟩]).2) ∧
    checkerRun ("rep-1") 0 true [(100, ⟨202, (""), none, none⟩)] =
      (Ev.sleepFor MIN_TIME_FOR_RETRIEVING_REPORT ::
        (checkerRun ("rep-1") 0 false [(100, ⟨202, (""), none, none⟩)]).1,
        (checkerRun ("rep-1") 0 false
          [(100, ⟨202, (""), none, none⟩)]).2) ∧
    (creatorSend (fun n => toString n) 0
      [⟨201, (""), some (50), none⟩]).1.filter isSleep = [] ∧
    ((spawnSleepFlags (creatorSend (fun n => toString n) 0
      [⟨201, (""), some (50), none⟩]).1).all (fun b => b)) = true ∧
    ((sleepDurations (checkerBody ("rep-1") 0
      [(100, ⟨202, (""), none, none⟩)]).1).all
      (fun d => d == TIME_BETWEEN_GET_REQUESTS)) = true ∧
    checkerSendLoop ("rep-1") 0 ((100, ⟨202, (""), none, none⟩) :: []) =
      (Ev.getReport ("rep-1") (⟨202, (""), none, none⟩ : Response).status ::
        Ev.logDebug :: Ev.sleepFor TIME_BETWEEN_GET_REQUESTS ::
        (checkerSendLoop ("rep-1") 0 []).1,
        (checkerSendLoop ("rep-1") 0 []).2) :=
  run_sleep_semantics (fun n => toString n) 0
    [⟨201, (""), some (50), none⟩] ("rep-1") 0
    [(100, ⟨202, (""), none, none⟩)] 100 ⟨202, (""), none, none⟩ []
    rfl (by decide)

/-- C8: after a 201, the spawned polling loop and the next creation cycle
run as concurrent sibling tasks: in the time-ordered schedule that
`asyncio.gather` executes, the next cycle's POST occurs at exactly the
60 s mark after the spawn instant `s` no matter what the (possibly
still-pending) poll loop does, every event of both tasks appears in the
schedule (both are awaited before the enclosing frame returns), and the
schedule interleaves the two tasks by time rather than running one after
the other. -/
theorem gather_runs_creation_and_polling_concurrently (s : Int)
    (id : String) (t0 : Int) (scriptC : List (Int × Response))
    (ids : Nat → String) (k : Nat) (r : Response) (rest : List Response) :
    (⟨s + TIME_BETWEEN_REQUESTS_FOR_CREATING_REPORTS,
      Ev.postReport (ids k) r.status⟩ : TEv) ∈
      gatherMerge (timedOf s (checkerRun id t0 true scriptC).1)
        (timedOf s (creatorRun ids k true (r :: rest)).1) ∧
    List.Perm
      (gatherMerge (timedOf s (checkerRun id t0 true scriptC).1)
        (timedOf s (creatorRun ids k true (r :: rest)).1))
      (timedOf s (checkerRun id t0 true scriptC).1 ++
        timedOf s (creatorRun ids k true (r :: rest)).1) ∧
    List.Sorted TEv.le
      (gatherMerge (timedOf s (checkerRun id t0 true scriptC).1)
        (timedOf s (creatorRun ids k true (r :: rest)).1)) := by
  have hperm : List.Perm
      (gatherMerge (timedOf s (checkerRun id t0 true scriptC).1)
        (timedOf s (creatorRun ids k true (r :: rest)).1))
      (timedOf s (checkerRun id t0 true scriptC).1 ++
        timedOf s (creatorRun ids k true (r :: rest)).1) :=
    List.perm_merge _ _ _
  obtain ⟨tl, htl⟩ := creatorSend_head ids k r rest
  have hcreator : timedOf s (creatorRun ids k true (r :: rest)).1 =
      ⟨s + TIME_BETWEEN_REQUESTS_FOR_CREATING_REPORTS,
        Ev.postReport (ids k) r.status⟩ ::
      timedOf (s + TIME_BETWEEN_REQUESTS_FOR_CREATING_REPORTS) tl := by
    have hh : (creatorRun ids k true (r :: rest)).1 =
        Ev.sleepFor TIME_BETWEEN_REQUESTS_FOR_CREATING_REPORTS ::
        Ev.postReport (ids k) r.status :: tl := by
      simp [creatorRun, htl]
    rw [hh]
    simp [timedOf]
  refine ⟨?_, hperm, ?_⟩
  · exact hperm.mem_iff.2 (List.mem_append_right _
      (by rw [hcreator]; exact List.mem_cons_self _ _))
  · exact List.Sorted.merge
      (timedOf_sorted (checkerRun id t0 true scriptC).1 s
        (checkerRun_sleeps_nonneg id t0 true scriptC))
      (timedOf_sorted (creatorRun ids k true (r :: rest)).1 s
        (creatorRun_sleeps_nonneg ids k true (r :: rest)))

/-- C9: a poll run checks the deadline only after receiving a 202: whenever
the expired condition is logged, the trace contains a GET answered 202
(so at least one GET precedes any deadline check and expiry needs at
least one pending response); and a GET answered 200 produces its record
even when the sampled wall clock is already past the 300 s maximum
wait. -/
theorem poll_get_precedes_deadline_check (id : String) (t0 : Int)
    (sleep : Bool) (script1 : List (Int × Response)) (now : Int)
    (r : Response) (rest : List (Int × Response)) (v : String)
    (h1 : Ev.logError ExcName.tooMuchTimePassed ∈
      (checkerRun id t0 sleep script1).1)
    (h2 : r.status = REPORT_RETRIEVED_STATUS_CODE)
    (h3 : r.jsonValue = some v)
    (h4 : now - t0 > MAX_TIME_FOR_RETRIEVING_REPORT) :
    Ev.getReport id REPORT_STILL_NOT_AVAILABLE_STATUS_CODE ∈
      (checkerRun id t0 sleep script1).1 ∧
    recordsOf (checkerRun id t0 sleep ((now, r) :: rest)).1 =
      [⟨t0, v⟩] := by
  constructor
  · have hno := checkerSendLoop_no_logError id t0 script1
    rcases hq : (checkerSendLoop id t0 script1).2 with _ | e | _
    · simp_all [checkerRun, checkerBody, hq]
    · cases e <;> simp_all [checkerRun, checkerBody, hq] <;>
        exact checkerSendLoop_expired_mem id t0 script1 hq
    · simp_all [checkerRun, checkerBody, hq]
  · have hready : checkerSendLoop id t0 ((now, r) :: rest) =
        ([Ev.getReport id r.status, Ev.logInfo, Ev.appendRecord ⟨t0, v⟩],
          SendRes.ok) := by
      simp [checkerSendLoop, h2, h3, isErrorStatus,
        REPORT_RETRIEVED_STATUS_CODE, REPORT_STILL_NOT_AVAILABLE_STATUS_CODE]
    cases sleep <;> simp [checkerRun, checkerBody, hready, recordsOf]

/-- C9 witness: an expiring run whose script is a single 202 at 301 s, and
a 200 at 500 s (past the deadline) that still yields its record. -/
theorem poll_get_precedes_deadline_check_witness :
    Ev.getReport ("rep-1") REPORT_STILL_NOT_AVAILABLE_STATUS_CODE ∈
      (checkerRun ("rep-1") 0 false [(3010, ⟨202, (""), none, none⟩)]).1 ∧
    recordsOf (checkerRun ("rep-1") 0 false
      ((5000, ⟨200, (""), none, some ("x")⟩) :: [])).1 = [⟨0, ("x")⟩] :=
  poll_get_precedes_deadline_check ("rep-1") 0 false
    [(3010, ⟨202, (""), none, none⟩)] 5000 ⟨200, (""), none, some ("x")⟩
    [] ("x") (by decide) rfl rfl (by decide)

/-- C10: response-data extraction is unguarded — a 201 creation response
whose `date` header is missing or malformed makes
`__get_timestamp_from_response` raise, and a 200 poll response whose body
is not JSON with a `value` key makes `__report_retrieved` raise; neither
exception is caught by any handler of either loop, so the run ends
`uncaught`. -/
theorem response_extraction_unguarded (ids : Nat → String) (k : Nat)
    (sleep1 : Bool) (r : Response) (rest : List Response) (id : String)
    (t0 : Int) (sleep2 : Bool) (now : Int) (r2 : Response)
    (rest2 : List (Int × Response))
    (h1 : r.status = REPORT_CREATED_STATUS_CODE) (h2 : r.dateHeader = none)
    (h3 : r2.status = REPORT_RETRIEVED_STATUS_CODE)
    (h4 : r2.jsonValue = none) :
    (creatorRun ids k sleep1 (r :: rest)).2 =
      RunExit.uncaught ExcName.dateHeaderError ∧
    (checkerRun id t0 sleep2 ((now, r2) :: rest2)).2 =
      RunExit.uncaught ExcName.valueKeyError := by
  constructor
  · simp [creatorRun, creatorSend, h1, h2, isErrorStatus,
      REPORT_CREATED_STATUS_CODE, REPORT_ALREADY_EXISTS_STATUS_CODE]
  · simp [checkerRun, checkerBody, checkerSendLoop, h3, h4, isErrorStatus,
      REPORT_RETRIEVED_STATUS_CODE, REPORT_STILL_NOT_AVAILABLE_STATUS_CODE]

/-- C10 witness: a 201 without a parseable `date` header and a 200 without
a JSON `value` field. -/
theorem response_extraction_unguarded_witness :
    (creatorRun (fun n => toString n) 0 false
      [⟨201, (""), none, none⟩]).2 =
      RunExit.uncaught ExcName.dateHeaderError ∧
    (checkerRun ("rep-1") 0 false [(1, ⟨200, (""), none, none⟩)]).2 =
      RunExit.uncaught ExcName.valueKeyError :=
  response_extraction_unguarded (fun n => toString n) 0 false
    ⟨201, (""), none, none⟩ [] ("rep-1") 0 false 1 ⟨200, (""), none, none⟩
    [] rfl rfl rfl rfl
